import Mathlib

/-!
Shallow embedding of the bicrome order-intake backend (src/unnamed/part_000).

The program is an Express app with an Order Store in two variants: a
relational (PostgreSQL) table and an in-memory list (`memoryOrders` /
`memoryNextId`).  We embed the in-memory variant completely as a state
machine on `MemState`, and the relational variant's table semantics (the
concrete SQL statements in the handlers) on `RelState` where a claim needs
it.  JSON body values are modelled by `JVal` with JavaScript truthiness;
route parameters are strings run through `parseInt` (modelled by
`parseIntOpt`, where `none` stands for `NaN`).

Route dispatch follows Express first-match semantics in registration
order.  In the source, `app.delete('/api/orders/:id', ...)` (line 269) is
registered before `app.delete('/api/orders/all', ...)` (line 295), so a
`DELETE /api/orders/<seg>` request always matches the `:id` route, for
`seg = "all"` included; the bulk-delete handler body is embedded
separately as `deleteAllOrders` but is unreachable from `dispatch`.

Status strings are the source's Korean literals; the spec's enum names
correspond as: PENDING = "배송 준비 중", COMPLETED = "배송 완료",
CANCEL_REQUESTED = "취소 요청", CANCELLED = "취소 완료".
-/

/-- A JSON-ish JavaScript value as it appears in request bodies:
`undef` models an absent property (`undefined`), `jnull` models `null`. -/
inductive JVal where
  | undef
  | jnull
  | str (s : String)
  | num (n : Int)
deriving DecidableEq

/-- JavaScript truthiness of a `JVal` (`undefined`, `null`, `""`, `0` are
falsy; every other string or number is truthy). -/
def truthy : JVal → Bool
  | .undef => false
  | .jnull => false
  | .str s => s ≠ ""
  | .num n => n ≠ 0

/-- JavaScript `Number(v)` on the values our bodies carry; `none` stands
for `NaN`.  A string of decimal digits converts to its value, any other
non-empty string is `NaN`, and `Number("") = Number(null) = 0`. -/
def toNumber : JVal → Option Int
  | .undef => none
  | .jnull => some 0
  | .num n => some n
  | .str s =>
      if s = "" then some 0
      else if s.all Char.isDigit then some (s.toNat!) else none

/-- JavaScript `parseInt(s, 10)` restricted to the shapes that occur as
route parameters: the maximal leading run of decimal digits, `none`
(`NaN`) when the string does not start with a digit (e.g. `"all"`). -/
def parseIntOpt (s : String) : Option Nat :=
  let ds := s.toList.takeWhile Char.isDigit
  if ds.isEmpty then none
  else some (ds.foldl (fun n c => 10 * n + (c.toNat - 48)) 0)

/-- An order record, mirroring the fields of the in-memory object pushed
in the POST handler (and the columns of the `orders` table). -/
structure Order where
  id : Nat
  product_name : String
  quantity : Option Int
  buyer_name : JVal
  phone : JVal
  address : JVal
  total_amount : JVal
  status : String
  tracking_number : JVal
  tracking_carrier : JVal
  cancellation_reason : JVal
  order_date : Nat
deriving DecidableEq

/-- The request body of `POST /api/orders`. -/
structure CreateBody where
  quantity : JVal
  name : JVal
  phone : JVal
  address : JVal
  totalAmount : JVal
deriving DecidableEq

/-- The in-memory store: `memoryOrders` and `memoryNextId`. -/
structure MemState where
  orders : List Order
  nextId : Nat
deriving DecidableEq

/-- Initial in-memory store: `memoryOrders = []`, `memoryNextId = 1`. -/
def initState : MemState := ⟨[], 1⟩

/-- A JSON response body: a single order, a list of orders, or a
`{ message }` object. -/
inductive Body where
  | order (o : Order)
  | orders (os : List Order)
  | message (m : String)
deriving DecidableEq

/-- An HTTP response: status code and JSON body. -/
structure Resp where
  status : Nat
  body : Body
deriving DecidableEq

def requiredMsg : String := "모든 필수 정보가 전송되지 않았습니다."
def noOrderMsg : String := "해당 ID의 주문을 찾을 수 없습니다."
def deletedMsg : String := "주문이 성공적으로 삭제되었습니다."
def resetMemMsg : String := "모든 주문 정보가 성공적으로 초기화되었습니다. (메모리)"
def updateFailMsg : String := "주문 상태 업데이트에 실패했습니다."

/-- Does the first-matching order for route segment `seg` have this id?
JS: `o.id === parseInt(seg, 10)`; comparison with `NaN` is always false. -/
def idMatches (seg : String) (o : Order) : Bool :=
  parseIntOpt seg == some o.id

/-- The order object built in the POST handler's in-memory branch. -/
def mkOrder (b : CreateBody) (now : Nat) (nid : Nat) : Order :=
  { id := nid
    product_name := "코유산균"
    quantity := toNumber b.quantity
    buyer_name := b.name
    phone := b.phone
    address := b.address
    total_amount := b.totalAmount
    status := "배송 준비 중"
    tracking_number := .jnull
    tracking_carrier := .jnull
    cancellation_reason := .jnull
    order_date := now }

/-- Presence validation of `POST /api/orders`:
`!quantity || !name || !phone || !address || !totalAmount` rejects. -/
def validBody (b : CreateBody) : Bool :=
  truthy b.quantity && truthy b.name && truthy b.phone &&
    truthy b.address && truthy b.totalAmount

/-- `POST /api/orders` (in-memory branch): validate, then push the new
order and bump `memoryNextId`, answering 201 with the record. -/
def postOrder (b : CreateBody) (now : Nat) (s : MemState) : Resp × MemState :=
  if validBody b then
    let newOrder := mkOrder b now s.nextId
    (⟨201, .order newOrder⟩, ⟨s.orders ++ [newOrder], s.nextId + 1⟩)
  else
    (⟨400, .message requiredMsg⟩, s)

/-- The relation "sorted later-first by `order_date`", the order in which
the GET handler returns records. -/
def dateDescRel (a b : Order) : Prop := b.order_date ≤ a.order_date

instance : DecidableRel dateDescRel := fun a b =>
  inferInstanceAs (Decidable (b.order_date ≤ a.order_date))

instance : IsTotal Order dateDescRel :=
  ⟨fun a b => (Nat.le_total b.order_date a.order_date)⟩

instance : IsTrans Order dateDescRel :=
  ⟨fun _ _ _ h1 h2 => Nat.le_trans h2 h1⟩

/-- The GET handler's sort: a stable sort with comparator
`(a, b) => new Date(b.order_date) - new Date(a.order_date)`, i.e. the
stable descending sort by `order_date` (insertion sort realises it). -/
def sortDesc (l : List Order) : List Order :=
  List.insertionSort dateDescRel l

/-- `GET /api/orders` (in-memory branch): a sorted copy, state untouched. -/
def getOrders (s : MemState) : Resp × MemState :=
  (⟨200, .orders (sortDesc s.orders)⟩, s)

/-- Replace the first element satisfying `p` by its image under `f`
(models mutating the object returned by `Array.prototype.find`). -/
def updateFirst (p : Order → Bool) (f : Order → Order) : List Order → List Order
  | [] => []
  | x :: xs => if p x then f x :: xs else x :: updateFirst p f xs

/-- Remove the first element satisfying `p`
(models `findIndex` + `splice(index, 1)`). -/
def removeFirst (p : Order → Bool) : List Order → List Order
  | [] => []
  | x :: xs => if p x then xs else x :: removeFirst p xs

/-- The in-memory completion update on one record:
`order.status = '배송 완료'; if (trackingNumber) ...; if (carrier) ...`. -/
def memCompleteRow (tn carrier : JVal) (o : Order) : Order :=
  let o1 := { o with status := "배송 완료" }
  let o2 := if truthy tn then { o1 with tracking_number := tn } else o1
  if truthy carrier then { o2 with tracking_carrier := carrier } else o2

/-- The in-memory cancel-request update on one record: the handler first
defaults `reason` to `''` when absent/falsy, then assigns
`order.status = '취소 요청'; order.cancellation_reason = reason`. -/
def memCancelReqRow (reason : JVal) (o : Order) : Order :=
  { o with status := "취소 요청"
           cancellation_reason := if truthy reason then reason else .str "" }

/-- The in-memory admin-cancel update on one record: the handler defaults
`reason` to `null` when absent/falsy, then
`order.status = '취소 완료'; if (reason) order.cancellation_reason = reason`. -/
def memCancelRow (reason : JVal) (o : Order) : Order :=
  let o1 := { o with status := "취소 완료" }
  if truthy reason then { o1 with cancellation_reason := reason } else o1

/-- `PATCH /api/orders/:id/complete` (in-memory branch). -/
def completeOrder (seg : String) (tn carrier : JVal) (s : MemState) :
    Resp × MemState :=
  match s.orders.find? (idMatches seg) with
  | some o =>
      (⟨200, .order (memCompleteRow tn carrier o)⟩,
        ⟨updateFirst (idMatches seg) (memCompleteRow tn carrier) s.orders, s.nextId⟩)
  | none => (⟨404, .message noOrderMsg⟩, s)

/-- `PATCH /api/orders/:id/cancel-request` (in-memory branch). -/
def cancelRequestOrder (seg : String) (reason : JVal) (s : MemState) :
    Resp × MemState :=
  match s.orders.find? (idMatches seg) with
  | some o =>
      (⟨200, .order (memCancelReqRow reason o)⟩,
        ⟨updateFirst (idMatches seg) (memCancelReqRow reason) s.orders, s.nextId⟩)
  | none => (⟨404, .message noOrderMsg⟩, s)

/-- `PATCH /api/orders/:id/cancel` (in-memory branch). -/
def cancelOrder (seg : String) (reason : JVal) (s : MemState) :
    Resp × MemState :=
  match s.orders.find? (idMatches seg) with
  | some o =>
      (⟨200, .order (memCancelRow reason o)⟩,
        ⟨updateFirst (idMatches seg) (memCancelRow reason) s.orders, s.nextId⟩)
  | none => (⟨404, .message noOrderMsg⟩, s)

/-- `DELETE /api/orders/:id` (in-memory branch):
`findIndex`, `splice` on a hit, else 404. -/
def deleteOrder (seg : String) (s : MemState) : Resp × MemState :=
  if s.orders.any (idMatches seg) then
    (⟨200, .message deletedMsg⟩, ⟨removeFirst (idMatches seg) s.orders, s.nextId⟩)
  else
    (⟨404, .message noOrderMsg⟩, s)

/-- The `DELETE /api/orders/all` handler body (in-memory branch):
`memoryOrders = []; memoryNextId = 1`, answer 200.  In the running app
this handler is registered after `DELETE /api/orders/:id` and is
therefore never reached (see `dispatch`). -/
def deleteAllOrders (_s : MemState) : Resp × MemState :=
  (⟨200, .message resetMemMsg⟩, ⟨[], 1⟩)

/-- A request at the public HTTP API.  `post` carries the clock value used
for `new Date()` at handling time.  `del seg` is `DELETE /api/orders/<seg>`
for any segment, `"all"` included. -/
inductive Request where
  | post (b : CreateBody) (now : Nat)
  | list
  | complete (seg : String) (tn carrier : JVal)
  | cancelRequest (seg : String) (reason : JVal)
  | cancel (seg : String) (reason : JVal)
  | del (seg : String)
deriving DecidableEq

/-- Express dispatch, in-memory mode, following registration order.  A
`DELETE /api/orders/<seg>` request always matches the `:id` route
registered first (source line 269), so `del "all"` runs `deleteOrder`
with `parseInt("all") = NaN`, and `deleteAllOrders` (line 295) is
unreachable. -/
def dispatch : Request → MemState → Resp × MemState
  | .post b now, s => postOrder b now s
  | .list, s => getOrders s
  | .complete seg tn c, s => completeOrder seg tn c s
  | .cancelRequest seg r, s => cancelRequestOrder seg r s
  | .cancel seg r, s => cancelOrder seg r s
  | .del seg, s => deleteOrder seg s

/-- Run a request sequence, collecting the responses. -/
def execAll : List Request → MemState → MemState × List Resp
  | [], s => (s, [])
  | r :: rs, s =>
      ((execAll rs (dispatch r s).2).1,
        (dispatch r s).1 :: (execAll rs (dispatch r s).2).2)

/-- The request list for a sequence of submissions (body, clock) pairs. -/
def postReqs (posts : List (CreateBody × Nat)) : List Request :=
  posts.map (fun p => .post p.1 p.2)

/-- The relational store's table: rows plus the `SERIAL` id sequence. -/
structure RelState where
  rows : List Order
  serial : Nat
deriving DecidableEq

/-- A freshly initialised `orders` table. -/
def relInitState : RelState := ⟨[], 1⟩

/-- `POST /api/orders` (relational branch): after the shared presence
validation, `INSERT INTO orders ... RETURNING *` draws the next `SERIAL`
id and fills the column defaults — status `'배송 준비 중'`, `NULL`
tracking and cancellation fields, `order_date = CURRENT_TIMESTAMP` — so
the returned row is exactly `mkOrder b now serial`. -/
def relPost (b : CreateBody) (now : Nat) (s : RelState) : Resp × RelState :=
  if validBody b then
    (⟨201, .order (mkOrder b now s.serial)⟩,
      ⟨s.rows ++ [mkOrder b now s.serial], s.serial + 1⟩)
  else
    (⟨400, .message requiredMsg⟩, s)

/-- The relational completion update on one row.  When at least one of
`trackingNumber`/`carrier` is truthy the handler runs
`UPDATE orders SET status = '배송 완료', tracking_number = $2,
tracking_carrier = $3` with `trackingNumber || null` and `carrier || null`
as parameters — both columns overwritten, the unsupplied one with `NULL`;
otherwise it runs the status-only `UPDATE`. -/
def relCompleteRow (tn carrier : JVal) (o : Order) : Order :=
  if truthy tn || truthy carrier then
    { o with status := "배송 완료"
             tracking_number := if truthy tn then tn else .jnull
             tracking_carrier := if truthy carrier then carrier else .jnull }
  else
    { o with status := "배송 완료" }

/-- `PATCH /api/orders/:id/complete` (relational branch): `UPDATE ...
WHERE id = $1 RETURNING *`; ids are unique so at most one row updates.
A `NaN` id parameter makes the driver raise, caught as a 500. -/
def relCompleteH (seg : String) (tn carrier : JVal) (s : RelState) :
    Resp × RelState :=
  match parseIntOpt seg with
  | none => (⟨500, .message updateFailMsg⟩, s)
  | some i =>
      if s.rows.any (fun o => o.id == i) then
        ((match (s.rows.filter (fun o => o.id == i)).map (relCompleteRow tn carrier) with
          | o :: _ => ⟨200, .order o⟩
          | [] => ⟨404, .message noOrderMsg⟩),
          ⟨s.rows.map (fun o => if o.id == i then relCompleteRow tn carrier o else o),
            s.serial⟩)
      else (⟨404, .message noOrderMsg⟩, s)

/-- The fields a status-transition request must not touch. -/
def frameEq (a b : Order) : Prop :=
  b.id = a.id ∧ b.product_name = a.product_name ∧ b.quantity = a.quantity ∧
    b.buyer_name = a.buyer_name ∧ b.phone = a.phone ∧ b.address = a.address ∧
    b.total_amount = a.total_amount ∧ b.order_date = a.order_date

/-- The submission body of the §8 scenario:
`{quantity:2, name:"Kim", phone:"010-1111-2222", address:"Seoul",
totalAmount:"20000"}`. -/
def kimBody : CreateBody :=
  ⟨.num 2, .str "Kim", .str "010-1111-2222", .str "Seoul", .str "20000"⟩

/-!
Helper lemmas about the list-mutation primitives and the id counter.
-/

/-- Updating the first match in place leaves it the first match, provided
the update does not change whether the predicate holds. -/
theorem find?_updateFirst (p : Order → Bool) (f : Order → Order)
    (hp : ∀ x, p (f x) = p x) :
    ∀ (l : List Order) (o : Order), l.find? p = some o →
      (updateFirst p f l).find? p = some (f o)
  | [], o, h => by simp at h
  | x :: xs, o, h => by
      rw [List.find?_cons] at h
      cases hx : p x with
      | false =>
          rw [hx] at h
          have h' : List.find? p xs = some o := h
          have hu : updateFirst p f (x :: xs) = x :: updateFirst p f xs := by
            simp [updateFirst, hx]
          rw [hu, List.find?_cons, hx]
          exact find?_updateFirst p f hp xs o h'
      | true =>
          rw [hx] at h
          have h' : some x = some o := h
          cases h'
          have hu : updateFirst p f (x :: xs) = f x :: xs := by
            simp [updateFirst, hx]
          rw [hu, List.find?_cons, hp x, hx]

/-- `frameEq` is reflexive. -/
theorem frameEq_refl (o : Order) : frameEq o o := by
  simp [frameEq]

/-- The in-memory completion update only touches status and tracking. -/
theorem frameEq_memCompleteRow (tn c : JVal) (o : Order) :
    frameEq o (memCompleteRow tn c o) := by
  simp only [memCompleteRow, frameEq]
  split <;> split <;> simp

/-- The in-memory cancel-request update only touches status and reason. -/
theorem frameEq_memCancelReqRow (r : JVal) (o : Order) :
    frameEq o (memCancelReqRow r o) := by
  simp [memCancelReqRow, frameEq]

/-- The in-memory admin-cancel update only touches status and reason. -/
theorem frameEq_memCancelRow (r : JVal) (o : Order) :
    frameEq o (memCancelRow r o) := by
  simp only [memCancelRow, frameEq]
  split <;> simp

/-- An in-place update of the first match relates the old and new lists
pointwise by `frameEq` whenever the update preserves the frame fields. -/
theorem forall₂_frameEq_updateFirst (p : Order → Bool) (f : Order → Order)
    (hf : ∀ o, frameEq o (f o)) :
    ∀ l : List Order, List.Forall₂ frameEq l (updateFirst p f l)
  | [] => List.Forall₂.nil
  | x :: xs => by
      by_cases hx : p x
      · simp only [updateFirst, hx, if_pos, ite_true]
        exact List.Forall₂.cons (hf x) (List.forall₂_same.mpr fun o _ => frameEq_refl o)
      · simp only [updateFirst, hx, if_neg, ite_false]
        exact List.Forall₂.cons (frameEq_refl x) (forall₂_frameEq_updateFirst p f hf xs)

/-- No single request ever decreases `memoryNextId`. -/
theorem nextId_le_dispatch (r : Request) (s : MemState) :
    s.nextId ≤ (dispatch r s).2.nextId := by
  cases r with
  | post b now =>
      simp only [dispatch, postOrder]
      split <;> simp
  | list => simp [dispatch, getOrders]
  | complete seg tn c =>
      simp only [dispatch, completeOrder]
      split <;> simp
  | cancelRequest seg r =>
      simp only [dispatch, cancelRequestOrder]
      split <;> simp
  | cancel seg r =>
      simp only [dispatch, cancelOrder]
      split <;> simp
  | del seg =>
      simp only [dispatch, deleteOrder]
      split <;> simp

/-- `memoryNextId` never decreases along a request sequence. -/
theorem nextId_le_execAll :
    ∀ (reqs : List Request) (s : MemState),
      s.nextId ≤ (execAll reqs s).1.nextId
  | [], _ => le_refl _
  | r :: rs, s =>
      le_trans (nextId_le_dispatch r s)
        (nextId_le_execAll rs (dispatch r s).2)

/-- Only a successful submission answers 201, and the order it returns
has an id below the new `memoryNextId`. -/
theorem id_lt_of_201 (r : Request) (s : MemState) (o : Order)
    (h : (dispatch r s).1 = ⟨201, .order o⟩) :
    o.id < (dispatch r s).2.nextId := by
  cases r with
  | post b now =>
      simp only [dispatch, postOrder] at h ⊢
      by_cases hb : validBody b
      · rw [if_pos hb] at h
        rw [if_pos hb]
        simp only [Resp.mk.injEq, Body.order.injEq] at h
        rw [← h.2]
        simp [mkOrder]
      · rw [if_neg hb] at h
        simp at h
  | list => simp [dispatch, getOrders] at h
  | complete seg tn c =>
      simp only [dispatch, completeOrder] at h
      split at h <;> simp at h
  | cancelRequest seg r =>
      simp only [dispatch, cancelRequestOrder] at h
      split at h <;> simp at h
  | cancel seg r =>
      simp only [dispatch, cancelOrder] at h
      split at h <;> simp at h
  | del seg =>
      simp only [dispatch, deleteOrder] at h
      split at h <;> simp at h

/-- Every order ever returned with a 201 during a request sequence has an
id strictly below the final `memoryNextId`. -/
theorem created_id_lt_nextId :
    ∀ (reqs : List Request) (s : MemState) (o : Order),
      Resp.mk 201 (Body.order o) ∈ (execAll reqs s).2 →
      o.id < (execAll reqs s).1.nextId
  | [], _, o, h => by simp [execAll] at h
  | r :: rs, s, o, h => by
      simp only [execAll, List.mem_cons] at h
      rcases h with h | h
      · exact lt_of_lt_of_le (id_lt_of_201 r s o h.symm)
          (nextId_le_execAll rs (dispatch r s).2)
      · exact created_id_lt_nextId rs (dispatch r s).2 o h

/-- Each valid submission in a sequence appends exactly one record. -/
theorem orders_length_after_posts :
    ∀ (posts : List (CreateBody × Nat)) (s : MemState),
      (∀ p ∈ posts, validBody p.1 = true) →
      (execAll (postReqs posts) s).1.orders.length =
        s.orders.length + posts.length
  | [], _, _ => by simp [postReqs, execAll]
  | (b, t) :: rest, s, hv => by
      have hb : validBody b = true := hv (b, t) (List.mem_cons_self _ _)
      have hrest : ∀ p ∈ rest, validBody p.1 = true :=
        fun p hp => hv p (List.mem_cons_of_mem _ hp)
      simp only [postReqs, List.map_cons, execAll, dispatch]
      rw [show (postOrder b t s).2 = ⟨s.orders ++ [mkOrder b t s.nextId], s.nextId + 1⟩ by
        simp [postOrder, hb]]
      have := orders_length_after_posts rest
        ⟨s.orders ++ [mkOrder b t s.nextId], s.nextId + 1⟩ hrest
      simp only [postReqs] at this
      rw [this]
      simp
      omega

/-!
The claims.
-/

/-- C1: the claim says that after `DELETE /api/orders/all` completes
successfully, `listAll` returns the empty sequence and the next order
receives id 1.  In the code the `:id` delete route is registered first,
so `DELETE /api/orders/all` is handled by the single-delete handler with
`parseInt("all") = NaN`, answers 404 and leaves the store untouched; the
bulk-delete handler (`deleteAllOrders`), which would indeed reset the
store to `initState` with a 200, is unreachable.  This theorem evaluates
the code at the failing input (a store holding one order) and contrasts
it with the shadowed handler's intended behaviour. -/
theorem delete_all_route_shadowed :
    dispatch (.del "all") (dispatch (.post kimBody 7) initState).2 =
      (⟨404, .message noOrderMsg⟩, (dispatch (.post kimBody 7) initState).2) ∧
    (dispatch (.post kimBody 7) initState).2.orders ≠ [] ∧
    deleteAllOrders (dispatch (.post kimBody 7) initState).2 =
      (⟨200, .message resetMemMsg⟩, initState) := by decide

/-- C2 counterexample: the same request sequence — create, complete with
both tracking fields, then complete again with only `trackingNumber` —
leaves `tracking_carrier = "CJ"` in the in-memory store but
`tracking_carrier = NULL` in the relational table, so the two variants
are not interchangeable as claimed. -/
theorem rel_mem_not_interchangeable :
    ((dispatch (.complete "1" (.str "TN1") .undef)
        (dispatch (.complete "1" (.str "TN0") (.str "CJ"))
          (dispatch (.post kimBody 5) initState).2).2).2.orders.map
      Order.tracking_carrier = [.str "CJ"]) ∧
    ((relCompleteH "1" (.str "TN1") .undef
        (relCompleteH "1" (.str "TN0") (.str "CJ")
          (relPost kimBody 5 relInitState).2).2).2.rows.map
      Order.tracking_carrier = [.jnull]) := by decide

/-- C2 (amended): the two variants' mark-complete updates coincide on
every record whenever both of `trackingNumber`/`carrier` are supplied or
neither is; when exactly one is supplied they diverge (the relational
variant overwrites the other column with `NULL`, the in-memory variant
preserves it — see the counterexample). -/
theorem complete_merge_agree (o : Order) (tn carrier : JVal)
    (h : truthy tn = truthy carrier) :
    relCompleteRow tn carrier o = memCompleteRow tn carrier o := by
  cases o
  cases htn : truthy tn <;> cases hc : truthy carrier <;>
    rw [htn, hc] at h <;> simp_all [relCompleteRow, memCompleteRow, htn, hc]

/-- C2 witness: `complete_merge_agree` applied with both tracking fields
supplied, on the order of the scenario body. -/
theorem complete_merge_agree_witness :
    truthy (.str "TN1") = truthy (.str "CJ") ∧
    relCompleteRow (.str "TN1") (.str "CJ") (mkOrder kimBody 5 1) =
      memCompleteRow (.str "TN1") (.str "CJ") (mkOrder kimBody 5 1) :=
  ⟨by decide,
    complete_merge_agree (mkOrder kimBody 5 1) (.str "TN1") (.str "CJ") (by decide)⟩

/-- C3 counterexample: a completed order — `COMPLETED` is terminal — is
still moved to `CANCELLED` by the admin-cancel handler with a 200, i.e. a
transition is applied away from a terminal state and the status does not
only move forward through the state machine. -/
theorem transition_applied_from_terminal :
    ((dispatch (.complete "1" .undef .undef)
        (dispatch (.post kimBody 3) initState).2).2.orders.map Order.status =
      ["배송 완료"]) ∧
    ((dispatch (.cancel "1" .undef)
        (dispatch (.complete "1" .undef .undef)
          (dispatch (.post kimBody 3) initState).2).2).1.status = 200) ∧
    ((dispatch (.cancel "1" .undef)
        (dispatch (.complete "1" .undef .undef)
          (dispatch (.post kimBody 3) initState).2).2).2.orders.map Order.status =
      ["취소 완료"]) := by decide

/-- C3 (amended): the store does not enforce the forward-only state
machine; each transition operation simply overwrites the status of the
order it is applied to with its own target — `COMPLETED` for complete,
`CANCEL_REQUESTED` for cancel-request, `CANCELLED` for admin cancel —
regardless of the current status, terminal states included. -/
theorem status_overwritten_unconditionally (o : Order) (tn c r r' : JVal) :
    (memCompleteRow tn c o).status = "배송 완료" ∧
    (memCancelReqRow r o).status = "취소 요청" ∧
    (memCancelRow r' o).status = "취소 완료" := by
  refine ⟨?_, ?_, ?_⟩
  · simp only [memCompleteRow]
    split <;> split <;> rfl
  · rfl
  · simp only [memCancelRow]
    split <;> rfl

/-- C4: after any request sequence, a further valid submission answers
201 with the order built on the current `memoryNextId`, and that id is
strictly greater than the id of every order previously created (returned
with a 201) in the same store instance.  Bulk deletion cannot intervene:
at the public API, `DELETE /api/orders/all` never reaches the reset
handler (see C1), so the monotone counter is never reset. -/
theorem new_order_id_gt_previous (reqs : List Request) (o : Order)
    (ho : Resp.mk 201 (Body.order o) ∈ (execAll reqs initState).2)
    (b : CreateBody) (now : Nat) (hv : validBody b = true) :
    (postOrder b now (execAll reqs initState).1).1 =
      ⟨201, .order (mkOrder b now (execAll reqs initState).1.nextId)⟩ ∧
    o.id < (mkOrder b now (execAll reqs initState).1.nextId).id := by
  constructor
  · simp [postOrder, hv]
  · simpa [mkOrder] using created_id_lt_nextId reqs initState o ho

/-- C4 witness: after one submission, a second one receives a larger id. -/
theorem new_order_id_gt_previous_witness :
    Resp.mk 201 (Body.order (mkOrder kimBody 4 1)) ∈
      (execAll [.post kimBody 4] initState).2 ∧
    (mkOrder kimBody 4 1).id <
      (mkOrder kimBody 6 (execAll [.post kimBody 4] initState).1.nextId).id :=
  ⟨by decide,
    (new_order_id_gt_previous [.post kimBody 4] (mkOrder kimBody 4 1)
      (by decide) kimBody 6 (by decide)).2⟩

/-- C5: the §8 scenario.  Creating the order
`{quantity:2, name:"Kim", phone:"010-1111-2222", address:"Seoul",
totalAmount:"20000"}` answers 201 with status PENDING (`배송 준비 중`)
and `order_date` equal to the creation clock; completing it with
`{trackingNumber:"TN1", carrier:"CJ"}` answers 200 with status COMPLETED
(`배송 완료`) and tracking number `TN1`; deleting that id answers 200 and
the subsequent `GET /api/orders` excludes it. -/
theorem scenario_create_complete_delete :
    (dispatch (.post kimBody 11) initState).1 =
      ⟨201, .order (mkOrder kimBody 11 1)⟩ ∧
    (mkOrder kimBody 11 1).status = "배송 준비 중" ∧
    (mkOrder kimBody 11 1).order_date = 11 ∧
    (dispatch (.complete "1" (.str "TN1") (.str "CJ"))
        (dispatch (.post kimBody 11) initState).2).1 =
      ⟨200, .order (memCompleteRow (.str "TN1") (.str "CJ") (mkOrder kimBody 11 1))⟩ ∧
    (memCompleteRow (.str "TN1") (.str "CJ") (mkOrder kimBody 11 1)).status =
      "배송 완료" ∧
    (memCompleteRow (.str "TN1") (.str "CJ") (mkOrder kimBody 11 1)).tracking_number =
      .str "TN1" ∧
    (dispatch (.del "1")
        (dispatch (.complete "1" (.str "TN1") (.str "CJ"))
          (dispatch (.post kimBody 11) initState).2).2).1.status = 200 ∧
    (dispatch .list
        (dispatch (.del "1")
          (dispatch (.complete "1" (.str "TN1") (.str "CJ"))
            (dispatch (.post kimBody 11) initState).2).2).2).1 =
      ⟨200, .orders []⟩ := by decide

/-- C6: after any sequence of valid submissions and nothing else, the
list endpoint answers 200 with exactly as many records as submissions,
sorted by `order_date` descending (newest first); on the empty store it
answers 200 with the empty list, not an error. -/
theorem listAll_after_creates (posts : List (CreateBody × Nat))
    (hv : ∀ p ∈ posts, validBody p.1 = true) :
    (getOrders (execAll (postReqs posts) initState).1).1 =
      ⟨200, .orders (sortDesc (execAll (postReqs posts) initState).1.orders)⟩ ∧
    (sortDesc (execAll (postReqs posts) initState).1.orders).length =
      posts.length ∧
    List.Sorted dateDescRel
      (sortDesc (execAll (postReqs posts) initState).1.orders) ∧
    getOrders initState = (⟨200, .orders []⟩, initState) := by
  refine ⟨rfl, ?_, ?_, by decide⟩
  · rw [sortDesc, List.length_insertionSort]
    simpa [initState] using orders_length_after_posts posts initState hv
  · exact List.sorted_insertionSort dateDescRel _

/-- C6 witness: two valid submissions yield a listing of two records. -/
theorem listAll_after_creates_witness :
    (∀ p ∈ [(kimBody, 5), (kimBody, 9)], validBody p.1 = true) ∧
    (sortDesc (execAll (postReqs [(kimBody, 5), (kimBody, 9)]) initState).1.orders).length = 2 :=
  ⟨by decide, (listAll_after_creates [(kimBody, 5), (kimBody, 9)] (by decide)).2.1⟩

/-- C7: a submission with any required field absent or falsy answers 400
with the fixed message and leaves the store exactly as it was. -/
theorem invalid_post_rejected (b : CreateBody) (now : Nat) (s : MemState)
    (h : validBody b = false) :
    postOrder b now s = (⟨400, .message requiredMsg⟩, s) := by
  simp [postOrder, h]

/-- C7 witness: a submission with an empty phone is rejected without
creating a record. -/
theorem invalid_post_rejected_witness :
    validBody ⟨.num 2, .str "Kim", .str "", .str "Seoul", .str "20000"⟩ = false ∧
    postOrder ⟨.num 2, .str "Kim", .str "", .str "Seoul", .str "20000"⟩ 0 initState =
      (⟨400, .message requiredMsg⟩, initState) :=
  ⟨by decide, invalid_post_rejected _ 0 initState (by decide)⟩

/-- C8: when no order in the store carries the requested id, each of
mark-complete, cancel-request, admin cancel and single delete answers 404
with the fixed message and returns the store unchanged. -/
theorem unknown_id_leaves_store (s : MemState) (seg : String)
    (tn c r r' : JVal)
    (h : ∀ o ∈ s.orders, idMatches seg o = false) :
    completeOrder seg tn c s = (⟨404, .message noOrderMsg⟩, s) ∧
    cancelRequestOrder seg r s = (⟨404, .message noOrderMsg⟩, s) ∧
    cancelOrder seg r' s = (⟨404, .message noOrderMsg⟩, s) ∧
    deleteOrder seg s = (⟨404, .message noOrderMsg⟩, s) := by
  have hf : s.orders.find? (idMatches seg) = none := by
    rw [List.find?_eq_none]
    intro x hx
    simp [h x hx]
  have ha : s.orders.any (idMatches seg) = false := by
    rw [List.any_eq_false]
    intro x hx
    simp [h x hx]
  refine ⟨?_, ?_, ?_, ?_⟩
  · simp [completeOrder, hf]
  · simp [cancelRequestOrder, hf]
  · simp [cancelOrder, hf]
  · simp [deleteOrder, ha]

/-- C8 witness: on a store holding only order 1, id 2 matches nothing and
mark-complete answers 404 leaving the store unchanged. -/
theorem unknown_id_leaves_store_witness :
    (∀ o ∈ (dispatch (.post kimBody 3) initState).2.orders,
        idMatches "2" o = false) ∧
    completeOrder "2" .undef .undef (dispatch (.post kimBody 3) initState).2 =
      (⟨404, .message noOrderMsg⟩, (dispatch (.post kimBody 3) initState).2) :=
  ⟨by decide,
    (unknown_id_leaves_store (dispatch (.post kimBody 3) initState).2 "2"
      .undef .undef .undef .undef (by decide)).1⟩

/-- C9: each status-transition operation relates the stored list before
and after pointwise by `frameEq`, i.e. it can only ever change status,
tracking number, tracking carrier and cancellation reason; id, product
name, quantity, buyer name, phone, address, total amount and order date
are untouched on every record. -/
theorem transitions_preserve_frame (s : MemState) (seg : String)
    (tn c r r' : JVal) :
    List.Forall₂ frameEq s.orders (completeOrder seg tn c s).2.orders ∧
    List.Forall₂ frameEq s.orders (cancelRequestOrder seg r s).2.orders ∧
    List.Forall₂ frameEq s.orders (cancelOrder seg r' s).2.orders := by
  have hrefl : List.Forall₂ frameEq s.orders s.orders :=
    List.forall₂_same.mpr fun o _ => frameEq_refl o
  refine ⟨?_, ?_, ?_⟩
  · cases hf : s.orders.find? (idMatches seg) with
    | none => simpa [completeOrder, hf] using hrefl
    | some o =>
        simpa [completeOrder, hf] using
          forall₂_frameEq_updateFirst (idMatches seg) (memCompleteRow tn c)
            (frameEq_memCompleteRow tn c) s.orders
  · cases hf : s.orders.find? (idMatches seg) with
    | none => simpa [cancelRequestOrder, hf] using hrefl
    | some o =>
        simpa [cancelRequestOrder, hf] using
          forall₂_frameEq_updateFirst (idMatches seg) (memCancelReqRow r)
            (frameEq_memCancelReqRow r) s.orders
  · cases hf : s.orders.find? (idMatches seg) with
    | none => simpa [cancelOrder, hf] using hrefl
    | some o =>
        simpa [cancelOrder, hf] using
          forall₂_frameEq_updateFirst (idMatches seg) (memCancelRow r')
            (frameEq_memCancelRow r') s.orders

/-- C10: on an order present in the store, a cancel-request without a
reason overwrites the stored cancellation reason with the empty string
(the handler defaults the reason to `''` and assigns unconditionally),
while an admin cancel without a reason preserves the stored reason (the
handler defaults to `null` and assigns only when truthy). -/
theorem cancel_reason_asymmetry (s : MemState) (seg : String) (o : Order)
    (h : s.orders.find? (idMatches seg) = some o) :
    (cancelRequestOrder seg .undef s).2.orders.find? (idMatches seg) =
      some { o with status := "취소 요청", cancellation_reason := .str "" } ∧
    (cancelOrder seg .undef s).2.orders.find? (idMatches seg) =
      some { o with status := "취소 완료" } := by
  constructor
  · have hp : ∀ x, idMatches seg (memCancelReqRow .undef x) = idMatches seg x :=
      fun x => by simp [idMatches, (frameEq_memCancelReqRow .undef x).1]
    have := find?_updateFirst (idMatches seg) (memCancelReqRow .undef) hp s.orders o h
    simpa [cancelRequestOrder, h, memCancelReqRow, truthy] using this
  · have hp : ∀ x, idMatches seg (memCancelRow .undef x) = idMatches seg x :=
      fun x => by simp [idMatches, (frameEq_memCancelRow .undef x).1]
    have := find?_updateFirst (idMatches seg) (memCancelRow .undef) hp s.orders o h
    simpa [cancelOrder, h, memCancelRow, truthy] using this

/-- C10 witness: order 1 first stores the reason `단순 변심` through a
cancel-request, then an admin cancel without a reason keeps it. -/
theorem cancel_reason_asymmetry_witness :
    ((dispatch (.cancelRequest "1" (.str "단순 변심"))
        (dispatch (.post kimBody 3) initState).2).2.orders.find?
      (idMatches "1") =
      some (memCancelReqRow (.str "단순 변심") (mkOrder kimBody 3 1))) ∧
    ((cancelOrder "1" .undef
        (dispatch (.cancelRequest "1" (.str "단순 변심"))
          (dispatch (.post kimBody 3) initState).2).2).2.orders.find?
      (idMatches "1") =
      some { memCancelReqRow (.str "단순 변심") (mkOrder kimBody 3 1) with
              status := "취소 완료" }) :=
  ⟨by decide,
    (cancel_reason_asymmetry
      (dispatch (.cancelRequest "1" (.str "단순 변심"))
        (dispatch (.post kimBody 3) initState).2).2 "1"
      (memCancelReqRow (.str "단순 변심") (mkOrder kimBody 3 1))
      (by decide)).2⟩
